import Mathlib

/-!
Verification development for `src/deploy.py` (uv-deploy-tools).

The file shallowly embeds the version-resolution and artifact-assembly
pipeline of `OrbitDeployer`: `find_best_python_version`, the fallback-record
lifecycle inside `copy_python`, the artifact-cache existence check of
`download_uv` / `copy_python`, the bootstrap-script generation of
`create_batch_scripts`, the archive naming of `create_deployment_package` /
`get_project_version`, and the multi-target loop of `deploy`.

Python strings are Lean `String`; Python ints are `Nat` (all integers in the
embedded code are nonnegative version components); Python `None` in a returned
slot is `Option.none`; code paths that raise an exception are `Option.none` at
the outer level. Filesystem side effects (the per-project fallback-record file,
the cache directory) are threaded as explicit state.
-/

namespace UvDeploy

/-- Digit run at the front of a character list: `(run, rest)`.
Mirrors what a greedy regex digit group consumes. -/
def takeDigits (cs : List Char) : List Char × List Char :=
  (cs.takeWhile Char.isDigit, cs.dropWhile Char.isDigit)

/-- Numeric value of a list of decimal digit characters (Python `int` on the
pure-digit strings produced by the `\d+` groups of `deploy.py`). -/
def digitsToNat (ds : List Char) : Nat :=
  ds.foldl (fun a c => a * 10 + (c.toNat - 48)) 0

/-- Embedding of `re.match(r'(\d+)\.(\d+)(?:\.(\d+))?', requested_version)`
restricted to the two groups the code reads (`major`, `minor`).
`re.match` anchors at the start only; trailing text and the optional patch
group never make the match fail, so they are ignored here exactly as the code
ignores them. Returns `none` when the regex does not match. -/
def parseVersion (s : String) : Option (Nat × Nat) :=
  match takeDigits s.data with
  | ([], _) => none
  | (d1, r1) =>
    match r1 with
    | '.' :: r2 =>
      match takeDigits r2 with
      | ([], _) => none
      | (d2, _) => some (digitsToNat d1, digitsToNat d2)
    | _ => none

/-- Accumulator for `splitDots`: the pending (reversed) piece and the rest. -/
def splitDotsAux : List Char → List Char → List String
  | acc, [] => [⟨acc.reverse⟩]
  | acc, c :: cs =>
    if c = '.' then (⟨acc.reverse⟩ : String) :: splitDotsAux [] cs
    else splitDotsAux (c :: acc) cs

/-- Python `s.split('.')`. -/
def splitDots (s : String) : List String :=
  splitDotsAux [] s.data

/-- Python `int(s)` on the catalog-key components. The keys built by
`deploy.py` are pure `\d+` strings, for which `int` is exactly the decimal
value; any other component makes `int` raise, modelled as `none`. -/
def pyInt (s : String) : Option Nat :=
  if s.data ≠ [] ∧ s.data.all Char.isDigit then some (digitsToNat s.data) else none

/-- Embedding of `v_major, v_minor = map(int, v_short.split('.'))`:
succeeds only when the key splits into exactly two int-parsable components,
otherwise the code raises (unpack error / `ValueError`), modelled as `none`. -/
def parseKey (s : String) : Option (Nat × Nat) :=
  match splitDots s with
  | [a, b] =>
    match pyInt a, pyInt b with
    | some x, some y => some (x, y)
    | _, _ => none
  | _ => none

/-- Python string `<` (lexicographic by code point) on character lists. -/
def strLtL : List Char → List Char → Bool
  | [], [] => false
  | [], _ :: _ => true
  | _ :: _, [] => false
  | a :: as, b :: bs =>
    if a.toNat < b.toNat then true
    else if b.toNat < a.toNat then false
    else strLtL as bs

/-- Python string `<` comparison. -/
def strLtP (a b : String) : Bool :=
  strLtL a.data b.data

/-- The catalog value type: `('full version', build date or None)`; the Linux
static table stores a build date, the Windows discovered catalog stores
`None`. -/
abbrev PyVInfo := String × Option String

/-- Insert an item into a list sorted in descending key order. -/
def insertDesc (x : String × PyVInfo) : List (String × PyVInfo) → List (String × PyVInfo)
  | [] => [x]
  | y :: ys => if strLtP y.1 x.1 then x :: y :: ys else y :: insertDesc x ys

/-- Embedding of `sorted(available_versions.items(), reverse=True)`: the dict
items sorted by key in descending Python-string order (keys of a dict are
distinct, so the value components never take part in the comparison). -/
def sortDesc : List (String × PyVInfo) → List (String × PyVInfo)
  | [] => []
  | x :: xs => insertDesc x (sortDesc xs)

/-- Python `v_major < major or (v_major == major and v_minor < minor)`. -/
def lowerThan (vM vm M m : Nat) : Bool :=
  decide (vM < M) || (decide (vM = M) && decide (vm < m))

/-- Embedding of the fallback scan loop of `find_best_python_version`:
walk the key-descending item list, parse each key with
`map(int, v_short.split('.'))`, and break at the first strictly lower one.
Outer `none` is the `ValueError` crash on a malformed key; `some none` is loop
exhaustion with no fallback found. -/
def findFallback (major minor : Nat) : List (String × PyVInfo) → Option (Option (String × PyVInfo))
  | [] => some none
  | (k, vinfo) :: rest =>
    match parseKey k with
    | none => none
    | some (vM, vm) =>
      if lowerThan vM vm major minor then some (some (k, vinfo))
      else findFallback major minor rest

/-- Python f-string `f"{major}.{minor}"` on ints. -/
def shortVer (major minor : Nat) : String :=
  toString major ++ "." ++ toString minor

/-- The second component of the pair returned by `find_best_python_version`:
a bare string (malformed passthrough), a catalog value tuple, or `None`. -/
inductive PyInfo
  | str : String → PyInfo
  | pair : PyVInfo → PyInfo
  | noneV : PyInfo
deriving DecidableEq, Repr

/-- Result of one call to `find_best_python_version`: the returned pair
`(best_version, version_info)` plus the fallback-file write the call performs
(`fallback_file.write_text(f"{requested_version}|{fallback_version}|...")`),
recorded as `(requested_version, fallback_version)` when it happens. -/
structure ResolveOutcome where
  best : Option String
  info : PyInfo
  write : Option (String × String)
deriving DecidableEq, Repr

/-- Embedding of `OrbitDeployer.find_best_python_version` over an already
constructed catalog `available_versions` (the Linux static table or the
Windows catalog discovered from the local uv install tree; after the catalog
is built the function treats both OSes identically). Outer `none` is the
`ValueError` crash raised inside the fallback loop on a key that is not two
int components. -/
def find_best_python_version (requested : String)
    (available_versions : List (String × PyVInfo)) : Option ResolveOutcome :=
  match parseVersion requested with
  | none => some ⟨some requested, PyInfo.str requested, none⟩
  | some (major, minor) =>
    match List.lookup (shortVer major minor) available_versions with
    | some vinfo => some ⟨some (shortVer major minor), PyInfo.pair vinfo, none⟩
    | none =>
      match findFallback major minor (sortDesc available_versions) with
      | some (some (fb, vinfo)) => some ⟨some fb, PyInfo.pair vinfo, some (requested, fb)⟩
      | some none => some ⟨none, PyInfo.noneV, none⟩
      | none => none

/-- The static Linux catalog literal of `find_best_python_version`. -/
def linuxVersions : List (String × PyVInfo) :=
  [("3.13", ("3.13.0", some "20241016")),
   ("3.12", ("3.12.7", some "20241016")),
   ("3.11", ("3.11.10", some "20240909")),
   ("3.10", ("3.10.15", some "20240909"))]

/-- Python `'.'.join(parts)`. -/
def joinDots : List String → String
  | [] => ""
  | [s] => s
  | s :: rest => s ++ "." ++ joinDots rest

/-- Python `'.'.join(ver.split('.')[:2])`: the short `major.minor` key the
Windows discovery derives from a full version string. -/
def shortOfVer (ver : String) : String :=
  joinDots ((splitDots ver).take 2)

/-- Python dict assignment `d[k] = v`: replace in place or append. -/
def dictInsert (k : String) (v : PyVInfo) : List (String × PyVInfo) → List (String × PyVInfo)
  | [] => [(k, v)]
  | (k0, v0) :: rest => if k0 = k then (k, v) :: rest else (k0, v0) :: dictInsert k v rest

/-- The Windows catalog built by `find_best_python_version` from the versions
extracted (by the `cpython-(\d+\.\d+(?:\.\d+)?)` search) out of the local
`cpython-*` install folders: `available_versions[short_ver] = (ver, None)`
in folder iteration order. -/
def windowsCatalog (vers : List String) : List (String × PyVInfo) :=
  vers.foldl (fun d ver => dictInsert (shortOfVer ver) (ver, none) d) []

/-- Contents of the per-project fallback-record file
`cache/.python_fallback_{project_name}`: the `original|used|timestamp`
triple read back by `copy_python`. -/
structure FRecord where
  original : String
  used : String
  stamp : String
deriving DecidableEq, Repr

/-- The version `copy_python` resolves with: the `original` field of an
existing fallback record overrides the requested version
(`python_version = original`), otherwise the requested version itself. -/
def effectiveRequest (rec : Option FRecord) (requested : String) : String :=
  match rec with
  | some r => r.original
  | none => requested

/-- Fallback-record file state after one `find_best_python_version` call:
the call's write (with the current timestamp) overwrites the file, and with no
write the file is untouched. -/
def recordAfterResolve (out : ResolveOutcome) (old : Option FRecord) (now : String) : Option FRecord :=
  match out.write with
  | some (q, f) => some ⟨q, f, now⟩
  | none => old

/-- What `copy_python` leaves behind: whether it returned `True`, the
`best_version` it resolved (as returned, `none` for the unresolved outcome),
and the fallback-record file state at exit. -/
structure CopyResult where
  success : Bool
  best : Option String
  recFile : Option FRecord
deriving DecidableEq, Repr

/-- Embedding of the resolution / fallback-record slice of
`OrbitDeployer.copy_python`: read an existing record and retry its original
version, resolve, apply the resolve call's record write, fail on a falsy
`best_version`, then (modelled by the `copyOk` flag) locate/download and copy
the runtime — any failure there returns `False` before the deletion check —
and finally delete the record iff `best_version == python_version` and the
file exists. Outer `none` is the crash propagated from the resolve call. -/
def copyPythonRecord (requested now : String) (catalog : List (String × PyVInfo))
    (rec : Option FRecord) (copyOk : Bool) : Option CopyResult :=
  let pv := effectiveRequest rec requested
  match find_best_python_version pv catalog with
  | none => none
  | some out =>
    let rec1 := recordAfterResolve out rec now
    match out.best with
    | none => some ⟨false, none, rec1⟩
    | some b =>
      if b = "" then some ⟨false, some b, rec1⟩
      else if copyOk then
        if b = pv ∧ rec1.isSome then some ⟨true, some b, none⟩
        else some ⟨true, some b, rec1⟩
      else some ⟨false, some b, rec1⟩

/-- The two artifact kinds the cache stores: the uv tool binary
(`download_uv`) and a Python runtime tree (`copy_python`, Linux branch). -/
inductive ArtifactKind
  | uv
  | python
deriving DecidableEq, Repr

/-- The deterministic cache path for a key:
`cache/{uv|uv.exe}_{target_os}` in `download_uv`,
`cache/python-{best_version}-linux` in `copy_python`. -/
def cachePath : ArtifactKind → String → String → String
  | ArtifactKind.uv, target_os, _ =>
    "cache/" ++ (if target_os = "windows" then "uv.exe" else "uv") ++ "_" ++ target_os
  | ArtifactKind.python, _, version => "cache/python-" ++ version ++ "-linux"

/-- Local cache directory state: which cache paths currently exist. -/
structure CacheState where
  files : List String
deriving DecidableEq, Repr

/-- Embedding of the cache discipline shared by `download_uv` and the Linux
branch of `copy_python`: if the deterministic cache path exists, use it with
no network I/O; otherwise download/extract into it (success of the network
and extraction steps modelled by `downloadOk`) and use it. The returned `Bool`
records whether a download was performed; `none` is the failure path
(exception or `return False`) before the cache file appears. -/
def ensureArtifact (k : ArtifactKind) (target_os version : String)
    (s : CacheState) (downloadOk : Bool) : Option (String × CacheState × Bool) :=
  let p := cachePath k target_os version
  if p ∈ s.files then some (p, s, false)
  else if downloadOk then some (p, ⟨p :: s.files⟩, true)
  else none

/-- The runtime directory name `copy_python` stages:
`target_dir = deploy_dir / f"python-{best_version}"`. The staged `python-*`
entries of the deploy dir are this single directory when `copy_python`
returned `True`, and nothing otherwise. -/
def stagingPythonDirs (requested now : String) (catalog : List (String × PyVInfo))
    (rec : Option FRecord) (copyOk : Bool) : List String :=
  match copyPythonRecord requested now catalog rec copyOk with
  | some res =>
    match res.best with
    | some b => if res.success then ["python-" ++ b] else []
    | none => []
  | none => []

/-- Python `list.takeWhile`-free prefix test used by `str.replace`. -/
def startsWithL : List Char → List Char → Bool
  | [], _ => true
  | _ :: _, [] => false
  | a :: as, b :: bs => a = b && startsWithL as bs

/-- Python `s.replace(pat, rep)` on character lists (all occurrences,
left to right, non-empty pattern), with fuel bounded by the input length. -/
def replaceAllL (pat rep : List Char) : Nat → List Char → List Char
  | 0, cs => cs
  | _, [] => []
  | fuel + 1, c :: cs =>
    if pat ≠ [] ∧ startsWithL pat (c :: cs) then
      rep ++ replaceAllL pat rep fuel (List.drop (pat.length - 1) cs)
    else c :: replaceAllL pat rep fuel cs

/-- Python `s.replace(pat, rep)` for the non-empty patterns the code uses. -/
def replaceAllStr (s pat rep : String) : String :=
  ⟨replaceAllL pat.data rep.data s.data.length s.data⟩

/-- Embedding of the `actual_version` computation of `create_batch_scripts`:
on Linux the version is recovered from the first staged `python-*` directory
name (`python_dirs[0].name.replace('python-', '')`, requested version when
none is staged); on every other OS it is the `python_version` argument — the
requested version passed in by `create_deployment_package`. -/
def actual_version (target_os : String) (python_dirs : List String)
    (python_version : String) : String :=
  if target_os = "linux" then
    match python_dirs with
    | d :: _ => replaceAllStr d "python-" ""
    | [] => python_version
  else python_version

/-- Built-in default `setup.bat` content written by `create_batch_scripts`
when no external template exists (the f-string literal with `actual_version`
substituted). -/
def windowsSetupDefault (av : String) : String :=
  "@echo off\necho Installation de l\x27environnement Python...\nuv.exe venv --python python-"
    ++ av ++ "\\python.exe\necho Environnement cree avec succes!\n"

/-- Built-in `setup.sh` content written by `create_batch_scripts` on Linux
(the f-string literal with `actual_version` substituted). -/
def linuxSetupDefault (av : String) : String :=
  "#!/bin/bash\necho \"========================================\"\necho \"Installation de l\x27environnement Python\"\necho \"========================================\"\necho \"\"\n./uv venv --python python-"
    ++ av ++ "/bin/python\necho \"\"\necho \"Environnement créé avec succès!\"\necho \"========================================\"\n"

/-- Substring occurrence test on character lists. -/
def containsL (needle : List Char) : List Char → Bool
  | [] => startsWithL needle []
  | c :: cs => startsWithL needle (c :: cs) || containsL needle cs

/-- Whether `needle` occurs in `hay`. -/
def containsSub (hay needle : String) : Bool :=
  containsL needle.data hay.data

/-- The `project.version` slice of a parsed `pyproject.toml`:
`data.get('project', {}).get('version', ...)` collapsed to the optional
version field. -/
structure PyManifest where
  project_version : Option String
deriving DecidableEq, Repr

/-- Embedding of `OrbitDeployer.get_project_version`: the manifest's
`project.version` when the file exists and declares one, `'0.1.0'`
otherwise. -/
def get_project_version (pyproject : Option PyManifest) : String :=
  match pyproject with
  | some man =>
    match man.project_version with
    | some v => v
    | none => "0.1.0"
  | none => "0.1.0"

/-- Two-digit zero-padded decimal, as `strftime` renders `%m` and `%d`. -/
def pad2 (n : Nat) : String :=
  if n < 10 then "0" ++ toString n else toString n

/-- `datetime.now().strftime('%Y%m%d')` for a calendar date `(y, m, d)`
(four-digit years, the only ones `datetime.now()` produces). -/
def dateStrYMD (y m d : Nat) : String :=
  toString y ++ pad2 m ++ pad2 d

/-- Embedding of the archive-name computation of `create_deployment_package`:
`package_name = f"{self.project_name}-v{version}-{date_str}.zip"` with
`version = get_project_version()` and `date_str` the current `%Y%m%d` date. -/
def package_name (project_name : String) (pyproject : Option PyManifest)
    (y m d : Nat) : String :=
  project_name ++ "-v" ++ get_project_version pyproject ++ "-" ++ dateStrYMD y m d ++ ".zip"

/-- Outcome of one `OrbitDeployer(...).run()` inside the `deploy` loop:
returned `True`, returned `False`, or raised (caught by the `except` arm). -/
inductive RunOutcome
  | succeeded
  | failed
  | raised
deriving DecidableEq, Repr

/-- Embedding of the per-server loop of `deploy`: walk the target list in
order, appending each server to `succeeded` when its run returns `True` and
to `failed` when it returns `False` or raises. -/
def deployAll : List (String × RunOutcome) → List String × List String → List String × List String
  | [], acc => acc
  | (srv, out) :: rest, (succ, fail) =>
    match out with
    | RunOutcome.succeeded => deployAll rest (succ ++ [srv], fail)
    | _ => deployAll rest (succ, fail ++ [srv])

/-- The `(succeeded, failed)` lists `deploy` has accumulated after the loop,
starting from the two empty lists. -/
def deploySummary (targets : List (String × RunOutcome)) : List String × List String :=
  deployAll targets ([], [])

/-- Whether `deploy` prints the final summary:
`if len(servers_to_deploy) > 1`. -/
def summaryPrinted (targets : List (String × RunOutcome)) : Bool :=
  decide (1 < targets.length)

/-- The pair `(best_version, version_info)` a resolve call returns to its
caller, with the fallback-file side effect projected away. -/
def resolvedPair (o : Option ResolveOutcome) : Option (Option String × PyInfo) :=
  o.map fun out => (out.best, out.info)

section Lemmas

/-- Resolving a version whose `major.minor` key is in the catalog hits the
exact-match branch: the catalog entry is returned and nothing is written. -/
theorem findBest_exact (r : String) (catalog : List (String × PyVInfo)) (M m : Nat)
    (vinfo : PyVInfo) (hp : parseVersion r = some (M, m))
    (hlook : List.lookup (shortVer M m) catalog = some vinfo) :
    find_best_python_version r catalog =
      some ⟨some (shortVer M m), PyInfo.pair vinfo, none⟩ := by
  unfold find_best_python_version
  rw [hp]
  dsimp only
  rw [hlook]

/-- The fallback scan finds nothing when every key of the list parses and is
not strictly below the request. -/
theorem findFallback_eq_none (M m : Nat) (l : List (String × PyVInfo))
    (h : ∀ kv ∈ l, ∃ vM vm, parseKey kv.1 = some (vM, vm) ∧ lowerThan vM vm M m = false) :
    findFallback M m l = some none := by
  induction l with
  | nil => rfl
  | cons kv rest ih =>
    obtain ⟨k, vinfo⟩ := kv
    obtain ⟨vM, vm, hk, hlow⟩ := h (k, vinfo) (List.mem_cons_self _ _)
    unfold findFallback
    rw [hk]
    dsimp only
    rw [hlow]
    simp only [Bool.false_eq_true, if_false]
    exact ih fun x hx => h x (List.mem_cons_of_mem _ hx)

/-- Members of `insertDesc a l` are `a` or members of `l`. -/
theorem mem_insertDesc {x a : String × PyVInfo} {l : List (String × PyVInfo)}
    (h : x ∈ insertDesc a l) : x = a ∨ x ∈ l := by
  induction l with
  | nil => simpa [insertDesc] using h
  | cons y ys ih =>
    unfold insertDesc at h
    cases hc : strLtP y.1 a.1 with
    | true =>
      rw [hc] at h
      simp only [if_true] at h
      rcases List.mem_cons.mp h with h | h
      · exact Or.inl h
      · exact Or.inr h
    | false =>
      rw [hc] at h
      simp only [Bool.false_eq_true, if_false] at h
      rcases List.mem_cons.mp h with h | h
      · exact Or.inr (List.mem_cons.mpr (Or.inl h))
      · rcases ih h with h' | h'
        · exact Or.inl h'
        · exact Or.inr (List.mem_cons.mpr (Or.inr h'))

/-- The key-descending sort does not invent items. -/
theorem mem_sortDesc {x : String × PyVInfo} {l : List (String × PyVInfo)}
    (h : x ∈ sortDesc l) : x ∈ l := by
  induction l with
  | nil => simp [sortDesc] at h
  | cons y ys ih =>
    rcases mem_insertDesc (show x ∈ insertDesc y (sortDesc ys) from h) with h' | h'
    · exact h' ▸ List.mem_cons_self _ _
    · exact List.mem_cons_of_mem _ (ih h')

/-- A resolve call never deletes the fallback file: starting from an existing
record, the post-resolve record state is still present. -/
theorem recordAfterResolve_isSome (out : ResolveOutcome) (r : FRecord) (now : String) :
    (recordAfterResolve out (some r) now).isSome = true := by
  unfold recordAfterResolve
  cases h : out.write with
  | none => rfl
  | some qf =>
    obtain ⟨q, f⟩ := qf
    rfl

end Lemmas

/-- Claim C1, evaluated at a failing input. On the Windows catalog discovered
from local installs of `3.10.2` and `3.9.1`, resolving the absent request
`3.11` returns `3.9` — the first strictly lower key in descending Python
string order — and records the fallback `("3.11", "3.9")`, even though `3.10`
is also a catalog entry strictly below the request and is the numerically
greater one (`9 < 10`). The claim (and the code's own "plus proche
inférieure" message) require `3.10` here. -/
theorem resolver_fallback_not_numerically_closest :
    find_best_python_version "3.11" (windowsCatalog ["3.10.2", "3.9.1"]) =
      some ⟨some "3.9", PyInfo.pair ("3.9.1", none), some ("3.11", "3.9")⟩ ∧
    List.lookup "3.10" (windowsCatalog ["3.10.2", "3.9.1"]) = some ("3.10.2", none) ∧
    parseKey "3.10" = some (3, 10) ∧
    lowerThan 3 10 3 11 = true ∧
    (9 : Nat) < 10 := by
  refine ⟨by decide, by decide, by decide, by decide, by decide⟩

/-- Claim C2, counterexample. The unparsable request `"abc"` is not returned
as the unresolved outcome `(None, None)`: `find_best_python_version` returns
the requested string itself in both positions, so the caller's
`if not best_version` check does not fail fast. -/
theorem resolver_malformed_not_unresolved :
    find_best_python_version "abc" linuxVersions =
      some ⟨some "abc", PyInfo.str "abc", none⟩ ∧
    (some "abc" : Option String) ≠ (none : Option String) := by
  refine ⟨by decide, by decide⟩

/-- Claim C2 as amended: for every requested version string that cannot be
parsed as `major.minor`, `find_best_python_version` returns the requested
string unchanged as both components of its result — a passthrough, not the
unresolved outcome — touching neither the catalog nor the fallback record. -/
theorem resolver_malformed_passthrough (r : String) (catalog : List (String × PyVInfo))
    (h : parseVersion r = none) :
    find_best_python_version r catalog = some ⟨some r, PyInfo.str r, none⟩ := by
  unfold find_best_python_version
  rw [h]

/-- Witness for `resolver_malformed_passthrough` at the unparsable request
`"x"`. -/
theorem resolver_malformed_passthrough_witness :
    find_best_python_version "x" [] = some ⟨some "x", PyInfo.str "x", none⟩ :=
  resolver_malformed_passthrough "x" [] (by decide)

/-- Claim C5: a requested version whose `major.minor` key is present in the
catalog resolves to exactly that catalog entry, and the call writes no
fallback record (the post-resolve record state equals the prior one). -/
theorem resolver_exact_match (r : String) (catalog : List (String × PyVInfo))
    (M m : Nat) (vinfo : PyVInfo) (hp : parseVersion r = some (M, m))
    (hlook : List.lookup (shortVer M m) catalog = some vinfo) :
    find_best_python_version r catalog =
      some ⟨some (shortVer M m), PyInfo.pair vinfo, none⟩ ∧
    ∀ old now, recordAfterResolve ⟨some (shortVer M m), PyInfo.pair vinfo, none⟩ old now = old :=
  ⟨findBest_exact r catalog M m vinfo hp hlook, fun _ _ => rfl⟩

/-- Witness for `resolver_exact_match`: the request `"3.12.5"` against the
static Linux catalog resolves to the `3.12` entry. -/
theorem resolver_exact_match_witness :
    find_best_python_version "3.12.5" linuxVersions =
      some ⟨some (shortVer 3 12), PyInfo.pair ("3.12.7", some "20241016"), none⟩ :=
  (resolver_exact_match "3.12.5" linuxVersions 3 12 ("3.12.7", some "20241016")
    (by decide) (by decide)).1

/-- Claim C6: a well-formed request whose `major.minor` key is absent from
the catalog and below which no catalog entry lies resolves to the unresolved
outcome `(None, None)` with no fallback-file write, so any previously
existing record is left unchanged. -/
theorem resolver_unresolved_no_record (r : String) (catalog : List (String × PyVInfo))
    (M m : Nat) (hp : parseVersion r = some (M, m))
    (hex : List.lookup (shortVer M m) catalog = none)
    (hlow : (catalog.all fun kv =>
        match parseKey kv.1 with
        | some (vM, vm) => !(lowerThan vM vm M m)
        | none => false) = true) :
    find_best_python_version r catalog = some ⟨none, PyInfo.noneV, none⟩ ∧
    ∀ old now, recordAfterResolve ⟨none, PyInfo.noneV, none⟩ old now = old := by
  constructor
  · unfold find_best_python_version
    rw [hp]
    dsimp only
    rw [hex]
    dsimp only
    rw [findFallback_eq_none M m (sortDesc catalog) ?_]
    intro kv hkv
    have hall := (List.all_eq_true.mp hlow) kv (mem_sortDesc hkv)
    revert hall
    cases hk : parseKey kv.1 with
    | none => intro hall; simp at hall
    | some p =>
      obtain ⟨vM, vm⟩ := p
      intro hall
      simp only [Bool.not_eq_true'] at hall
      exact ⟨vM, vm, rfl, hall⟩
  · intro old now
    rfl

/-- Witness for `resolver_unresolved_no_record`: the request `"2.5"` is below
every entry of the static Linux catalog and comes back unresolved. -/
theorem resolver_unresolved_no_record_witness :
    find_best_python_version "2.5" linuxVersions = some ⟨none, PyInfo.noneV, none⟩ :=
  (resolver_unresolved_no_record "2.5" linuxVersions 2 5 (by decide) (by decide) (by decide)).1

/-- Claim C4: with a fallback record present, `copy_python` re-issues
resolution with the record's original version; when that resolution (in a run
whose copy step completes, `copyOk`) yields exactly the original, the record
file is deleted; and conversely, the record file ends up deleted only on that
path — any exit with the record gone had `best_version` equal to the original
and a completed copy step. -/
theorem fallback_record_retry_and_clearing (requested now : String)
    (catalog : List (String × PyVInfo)) (r : FRecord) :
    effectiveRequest (some r) requested = r.original ∧
    (∀ out, find_best_python_version r.original catalog = some out →
      out.best = some r.original → r.original ≠ "" →
      copyPythonRecord requested now catalog (some r) true =
        some ⟨true, some r.original, none⟩) ∧
    (∀ copyOk res, copyPythonRecord requested now catalog (some r) copyOk = some res →
      res.recFile = none →
      res.best = some r.original ∧ copyOk = true ∧ res.success = true) := by
  refine ⟨rfl, ?_, ?_⟩
  · intro out hout hbest hne
    unfold copyPythonRecord
    dsimp only [effectiveRequest]
    rw [hout]
    dsimp only
    rw [hbest]
    dsimp only
    rw [if_neg hne, if_pos rfl,
      if_pos ⟨rfl, recordAfterResolve_isSome out r now⟩]
  · intro copyOk res hres hrec
    unfold copyPythonRecord at hres
    dsimp only [effectiveRequest] at hres
    cases hout : find_best_python_version r.original catalog with
    | none => rw [hout] at hres; cases hres
    | some out =>
      rw [hout] at hres
      dsimp only at hres
      have hsome := recordAfterResolve_isSome out r now
      cases hbest : out.best with
      | none =>
        rw [hbest] at hres
        dsimp only at hres
        cases hres
        have hno : recordAfterResolve out (some r) now = none := hrec
        rw [hno] at hsome
        cases hsome
      | some b =>
        rw [hbest] at hres
        dsimp only at hres
        by_cases hb : b = ""
        · rw [if_pos hb] at hres
          cases hres
          have hno : recordAfterResolve out (some r) now = none := hrec
          rw [hno] at hsome
          cases hsome
        · rw [if_neg hb] at hres
          cases copyOk with
          | false =>
            simp only [Bool.false_eq_true, if_false] at hres
            cases hres
            have hno : recordAfterResolve out (some r) now = none := hrec
            rw [hno] at hsome
            cases hsome
          | true =>
            simp only [if_true] at hres
            by_cases hcond : b = r.original ∧
                (recordAfterResolve out (some r) now).isSome = true
            · rw [if_pos hcond] at hres
              cases hres
              exact ⟨by rw [hcond.1], rfl, rfl⟩
            · rw [if_neg hcond] at hres
              cases hres
              have hno : recordAfterResolve out (some r) now = none := hrec
              rw [hno] at hsome
              cases hsome

/-- Witness for `fallback_record_retry_and_clearing`: a record
`3.13|3.12|t0` against the static Linux catalog (which now contains `3.13`)
is deleted by the next `copy_python`. -/
theorem fallback_record_retry_and_clearing_witness :
    copyPythonRecord "3.12" "t1" linuxVersions (some ⟨"3.13", "3.12", "t0"⟩) true =
      some ⟨true, some "3.13", none⟩ :=
  (fallback_record_retry_and_clearing "3.12" "t1" linuxVersions
    ⟨"3.13", "3.12", "t0"⟩).2.1
    ⟨some "3.13", PyInfo.pair ("3.13.0", some "20241016"), none⟩
    (by decide) rfl (by decide)

/-- Claim C7: the artifact cache is idempotent. If one `ensureArtifact` call
for a key succeeded — returning the deterministic cache path, the resulting
cache state and whether it downloaded — then a repeat call for the same key
against that state downloads nothing, returns the identical path and leaves
the cache state unchanged, whatever the network would do. -/
theorem artifact_cache_idempotent (k : ArtifactKind) (target_os version : String)
    (s : CacheState) (downloadOk : Bool) (p : String) (s1 : CacheState) (d : Bool)
    (h : ensureArtifact k target_os version s downloadOk = some (p, s1, d))
    (downloadOk2 : Bool) :
    ensureArtifact k target_os version s1 downloadOk2 = some (p, s1, false) := by
  unfold ensureArtifact at h ⊢
  by_cases hm : cachePath k target_os version ∈ s.files
  · rw [if_pos hm] at h
    simp only [Option.some.injEq, Prod.mk.injEq] at h
    obtain ⟨hp, hs, _⟩ := h
    rw [← hs, if_pos hm, hp]
  · rw [if_neg hm] at h
    cases downloadOk with
    | false => simp at h
    | true =>
      simp only [if_true, Option.some.injEq, Prod.mk.injEq] at h
      obtain ⟨hp, hs, _⟩ := h
      rw [← hs, ← hp]
      rw [if_pos (List.mem_cons_self _ _)]

/-- Witness for `artifact_cache_idempotent`: after a first downloading call
for the Linux uv binary, the second call is a pure cache hit. -/
theorem artifact_cache_idempotent_witness :
    ensureArtifact ArtifactKind.uv "linux" "" ⟨["cache/uv_linux"]⟩ false =
      some ("cache/uv_linux", ⟨["cache/uv_linux"]⟩, false) :=
  artifact_cache_idempotent ArtifactKind.uv "linux" "" ⟨[]⟩ true
    "cache/uv_linux" ⟨["cache/uv_linux"]⟩ true (by decide) false

/-- Claim C8: the returned resolution result depends only on the parsed
`(major, minor)` of the request — two request strings with the same
`major.minor` yield the same returned pair — and a request whose `major.minor`
key is in the catalog (whatever its own patch component) is an exact match,
returning the catalog's full entry with no fallback-record write. -/
theorem resolver_depends_only_on_short_version (r1 r2 : String)
    (catalog : List (String × PyVInfo)) (M m : Nat)
    (h1 : parseVersion r1 = some (M, m)) (h2 : parseVersion r2 = some (M, m)) :
    resolvedPair (find_best_python_version r1 catalog) =
      resolvedPair (find_best_python_version r2 catalog) ∧
    (∀ vinfo, List.lookup (shortVer M m) catalog = some vinfo →
      find_best_python_version r1 catalog =
        some ⟨some (shortVer M m), PyInfo.pair vinfo, none⟩) := by
  constructor
  · unfold find_best_python_version
    rw [h1, h2]
    dsimp only
    cases hL : List.lookup (shortVer M m) catalog with
    | some v => rfl
    | none =>
      cases hF : findFallback M m (sortDesc catalog) with
      | none => rfl
      | some o =>
        cases o with
        | none => rfl
        | some kv =>
          obtain ⟨fb, vinfo⟩ := kv
          rfl
  · intro vinfo hlook
    exact findBest_exact r1 catalog M m vinfo h1 hlook

/-- Witness for `resolver_depends_only_on_short_version`: `"3.12"` and
`"3.12.1"` resolve identically against the static Linux catalog, to its
`3.12` entry. -/
theorem resolver_depends_only_on_short_version_witness :
    resolvedPair (find_best_python_version "3.12" linuxVersions) =
      resolvedPair (find_best_python_version "3.12.1" linuxVersions) ∧
    find_best_python_version "3.12" linuxVersions =
      some ⟨some (shortVer 3 12), PyInfo.pair ("3.12.7", some "20241016"), none⟩ :=
  ⟨(resolver_depends_only_on_short_version "3.12" "3.12.1" linuxVersions 3 12
      (by decide) (by decide)).1,
   (resolver_depends_only_on_short_version "3.12" "3.12.1" linuxVersions 3 12
      (by decide) (by decide)).2 ("3.12.7", some "20241016") (by decide)⟩

/-- Claim C9: the produced archive is named
`{project}-v{version}-{YYYYMMDD}.zip`, with the version read from the
manifest's `project.version` field and defaulting to `0.1.0` when the
manifest or the field is absent; in particular project `demo`, version
`2.1.0` and date 2024-05-01 give `demo-v2.1.0-20240501.zip`. -/
theorem archive_naming :
    (∀ (project_name : String) (pyproject : Option PyManifest) (y m d : Nat),
      package_name project_name pyproject y m d =
        project_name ++ "-v" ++ get_project_version pyproject ++ "-" ++ dateStrYMD y m d ++ ".zip") ∧
    (∀ (project_name v : String) (y m d : Nat),
      package_name project_name (some ⟨some v⟩) y m d =
        project_name ++ "-v" ++ v ++ "-" ++ dateStrYMD y m d ++ ".zip") ∧
    get_project_version none = "0.1.0" ∧
    get_project_version (some ⟨none⟩) = "0.1.0" ∧
    package_name "demo" (some ⟨some "2.1.0"⟩) 2024 5 1 = "demo-v2.1.0-20240501.zip" :=
  ⟨fun _ _ _ _ _ => rfl, fun _ _ _ _ _ => rfl, rfl, rfl, by decide⟩

/-- The per-server loop of `deploy`, characterized for an arbitrary starting
accumulator: it appends, in order, the servers whose run succeeded to the
first list and all others to the second. -/
theorem deployAll_eq (ts : List (String × RunOutcome)) (succ fail : List String) :
    deployAll ts (succ, fail) =
      (succ ++ (ts.filter fun t => decide (t.2 = RunOutcome.succeeded)).map Prod.fst,
       fail ++ (ts.filter fun t => !decide (t.2 = RunOutcome.succeeded)).map Prod.fst) := by
  induction ts generalizing succ fail with
  | nil => simp [deployAll]
  | cons t rest ih =>
    obtain ⟨srv, out⟩ := t
    cases out <;>
      simp [deployAll, ih, List.filter_cons]

/-- Lists filtered by a predicate and its negation split the length. -/
theorem length_filter_split {α : Type} (p : α → Bool) (l : List α) :
    (l.filter p).length + (l.filter fun a => !(p a)).length = l.length :=
  (List.length_eq_length_filter_add p).symm

/-- Claim C10: the `deploy` loop attempts every target in order regardless of
earlier failures or exceptions — the final `succeeded` list is exactly the
targets whose run returned `True` and the `failed` list exactly the others
(returned `False` or raised), so together they account for all targets — and
with more than one target the final summary is printed. -/
theorem orchestrator_attempts_all_targets (targets : List (String × RunOutcome)) :
    deploySummary targets =
      ((targets.filter fun t => decide (t.2 = RunOutcome.succeeded)).map Prod.fst,
       (targets.filter fun t => !decide (t.2 = RunOutcome.succeeded)).map Prod.fst) ∧
    (deploySummary targets).1.length + (deploySummary targets).2.length = targets.length ∧
    (1 < targets.length → summaryPrinted targets = true) := by
  have hchar := deployAll_eq targets [] []
  refine ⟨by simpa [deploySummary] using hchar, ?_, ?_⟩
  · rw [show deploySummary targets = _ from by simpa [deploySummary] using hchar]
    simpa using length_filter_split (fun t => decide (t.2 = RunOutcome.succeeded)) targets
  · intro h
    exact decide_eq_true h

/-- Witness for `orchestrator_attempts_all_targets`: three targets, the
second raising at transfer, the third failing — all three are attempted, the
summary is printed and lists one succeeded and two failed. -/
theorem orchestrator_attempts_all_targets_witness :
    deploySummary
        [("alpha", RunOutcome.succeeded), ("beta", RunOutcome.raised), ("gamma", RunOutcome.failed)] =
      (["alpha"], ["beta", "gamma"]) ∧
    summaryPrinted
        [("alpha", RunOutcome.succeeded), ("beta", RunOutcome.raised), ("gamma", RunOutcome.failed)] =
      true :=
  ⟨by decide,
   (orchestrator_attempts_all_targets
      [("alpha", RunOutcome.succeeded), ("beta", RunOutcome.raised),
       ("gamma", RunOutcome.failed)]).2.2 (by decide)⟩

/-- Claim C3, evaluated at a failing input. On a Windows target requesting
`3.13` against a catalog holding only `3.12`, assembly stages the runtime
directory `python-3.12`, yet `create_batch_scripts` — which receives the
requested version and recovers the actually staged version only on Linux —
generates a `setup.bat` referencing `python-3.13\python.exe` and not
`python-3.12`. On Linux the same situation yields a script bound to the
staged `python-3.12`, as the claim demands for every OS. -/
theorem windows_setup_script_uses_requested_version :
    stagingPythonDirs "3.13" "t0" [("3.12", ("3.12.7", none))] none true = ["python-3.12"] ∧
    actual_version "windows" ["python-3.12"] "3.13" = "3.13" ∧
    containsSub (windowsSetupDefault (actual_version "windows" ["python-3.12"] "3.13"))
      "python-3.13" = true ∧
    containsSub (windowsSetupDefault (actual_version "windows" ["python-3.12"] "3.13"))
      "python-3.12" = false ∧
    actual_version "linux" ["python-3.12"] "3.13" = "3.12" ∧
    containsSub (linuxSetupDefault (actual_version "linux" ["python-3.12"] "3.13"))
      "python-3.12" = true := by
  refine ⟨by decide, by decide, by decide, by decide, by decide, by decide⟩

end UvDeploy
